import Mathlib

/-!
Shallow embedding of the actor-model runtime (Message, Actor, EventLoop,
schedulers) and proofs of its specified properties.

Modelling conventions:
* machine time (`std::chrono::system_clock::now()`) is an explicit `now : Nat`
  parameter wherever the C++ code stamps a timestamp;
* `std::any` payload values are a closed sum `PVal` of representative value
  types, with `PTag` playing the role of the template argument of
  `get_payload_value<T>`; a successful `any_cast<T>` is a tag match;
* handler bodies (`std::function<void(const Message&)>`) are external side
  effects, so the handler table `handlers_` is embedded as the set of message
  types that have a registered handler, and `process_next_message` reports
  which dispatch happened through a `ProcessEvent`;
* `std::unordered_map`/`std::map` are association lists with unique keys in
  every reachable registry; `std::queue` is a list with the head as the front;
* the weak back-reference `event_loop_` is a `loop_alive : Bool` flag
  (`weak_ptr::lock()` succeeding), and `Actor::send` returns the message it
  hands to `EventLoop::deliver_message`, or `none` when no delivery happens.
-/

namespace ActorCpp

/-- Message priority levels, `Message::Priority` (message.h). -/
inductive Priority
  | LOW
  | NORMAL
  | HIGH
  | CRITICAL
deriving DecidableEq, Repr

/-- Numeric value of a priority, as produced by `static_cast<int>`. -/
def Priority.toNat : Priority → Nat
  | .LOW => 0
  | .NORMAL => 1
  | .HIGH => 2
  | .CRITICAL => 3

/-- Dynamically-typed payload value (`std::any` restricted to a closed sum). -/
inductive PVal
  | vInt (n : Int)
  | vBool (b : Bool)
  | vStr (s : String)
deriving DecidableEq, Repr

/-- Expected-type tag: the template argument `T` of the payload accessors. -/
inductive PTag
  | tInt
  | tBool
  | tStr
deriving DecidableEq, Repr

/-- Runtime type of a payload value; `any_cast<T>` succeeds iff tags match. -/
def PVal.tag : PVal → PTag
  | .vInt _ => .tInt
  | .vBool _ => .tBool
  | .vStr _ => .tStr

/-- Message value (message.h): type tag, sender id, target id, keyed payload,
creation timestamp, priority. -/
structure Message where
  type : String
  sender_id : String
  target_id : String
  payload : List (String × PVal)
  created_at : Nat
  priority : Priority
deriving DecidableEq, Repr

/-- Message constructor (message.cpp): stamps `created_at` with the
construction instant `now`; call sites that omit the priority argument pass
`Priority.NORMAL`, the C++ default. -/
def Message.construct (type sender_id target_id : String)
    (payload : List (String × PVal)) (priority : Priority) (now : Nat) : Message :=
  { type := type, sender_id := sender_id, target_id := target_id,
    payload := payload, created_at := now, priority := priority }

/-- Lookup in a keyed payload: `payload_.find(key)` on the `std::map`. -/
def payloadFind : List (String × PVal) → String → Option PVal
  | [], _ => none
  | (k, v) :: rest, key => if k = key then some v else payloadFind rest key

/-- Failure conditions of the strict payload accessor: the two distinct
`std::runtime_error`s thrown by `Message::get_payload_value`. -/
inductive PayloadError
  | type_mismatch (key : String)
  | key_not_found (key : String)
deriving DecidableEq, Repr

/-- Strict payload accessor `Message::get_payload_value<T>` (message.h):
propagates a type mismatch or a missing key as distinct failures. -/
def Message.get_payload_value (m : Message) (expected : PTag) (key : String) :
    Except PayloadError PVal :=
  match payloadFind m.payload key with
  | some v =>
    if v.tag = expected then Except.ok v
    else Except.error (PayloadError.type_mismatch key)
  | none => Except.error (PayloadError.key_not_found key)

/-- Defaulting payload accessor `Message::get_payload_value_or<T>` (message.h):
returns the caller-supplied default on either failure, never propagates. -/
def Message.get_payload_value_or (m : Message) (expected : PTag) (key : String)
    (default_value : PVal) : PVal :=
  match payloadFind m.payload key with
  | some v => if v.tag = expected then v else default_value
  | none => default_value

/-- Actor lifecycle states, `Actor::State` (actor.h). -/
inductive State
  | CREATED
  | INITIALIZED
  | RUNNING
  | STOPPING
  | STOPPED
deriving DecidableEq, Repr

/-- Actor (actor.h): id, name, lifecycle state, FIFO mailbox (head = front of
`message_queue_`), and the set of message types with a registered handler. -/
structure Actor where
  id : String
  name : String
  state : State
  mailbox : List Message
  handlers : List String
deriving DecidableEq, Repr

/-- Actor has_messages (actor.h): `!message_queue_.empty()`. -/
def Actor.has_messages (a : Actor) : Bool :=
  !a.mailbox.isEmpty

/-- Actor is running check (actor.h): `state_ == State::RUNNING`. -/
def Actor.is_running (a : Actor) : Bool :=
  a.state == State.RUNNING

/-- Models `Actor::initialize` (actor.cpp): CREATED → INITIALIZED, otherwise a
diagnostic and no change. (Name shortened to `init`.) -/
def Actor.init (a : Actor) : Actor :=
  if a.state ≠ State.CREATED then a
  else { a with state := State.INITIALIZED }

/-- Models `Actor::start` (actor.cpp): INITIALIZED → RUNNING, otherwise a
diagnostic and no change. -/
def Actor.start (a : Actor) : Actor :=
  if a.state ≠ State.INITIALIZED then a
  else { a with state := State.RUNNING }

/-- Models `Actor::stop` (actor.cpp): no-op when STOPPED or STOPPING; otherwise
set STOPPING, and if the mailbox is already empty immediately set STOPPED. -/
def Actor.stop (a : Actor) : Actor :=
  if a.state = State.STOPPED ∨ a.state = State.STOPPING then a
  else
    let a1 := { a with state := State.STOPPING }
    if a1.has_messages then a1 else { a1 with state := State.STOPPED }

/-- Models `Actor::stop_immediately` (actor.cpp): swap the queue with an empty
one and set STOPPED, unconditionally. -/
def Actor.stop_immediately (a : Actor) : Actor :=
  { a with mailbox := [], state := State.STOPPED }

/-- Models `Actor::receive` (actor.cpp): reject (diagnostic, no change) unless
RUNNING or STOPPING; otherwise push to the back of the mailbox. -/
def Actor.receive (a : Actor) (message : Message) : Actor :=
  if a.state ≠ State.RUNNING ∧ a.state ≠ State.STOPPING then a
  else { a with mailbox := a.mailbox ++ [message] }

/-- Observable outcome of one `process_next_message` step: nothing was popped,
a message was dispatched to its registered handler, or a message with no
registered handler was consumed with a diagnostic. -/
inductive ProcessEvent
  | no_message
  | handled (m : Message)
  | unhandled (m : Message)
deriving DecidableEq, Repr

/-- Models `Actor::process_next_message` (actor.cpp). Returns the updated
actor, the C++ `bool` return value, and the dispatch event. STOPPED: return
false. Empty mailbox: finalize STOPPING → STOPPED, return false. Otherwise pop
the front message, dispatch to the registered handler if present (unhandled
types get a diagnostic only), finalize STOPPING → STOPPED if the pop emptied
the mailbox, and return true. -/
def Actor.process_next_message (a : Actor) : Actor × Bool × ProcessEvent :=
  if a.state = State.STOPPED then (a, false, ProcessEvent.no_message)
  else
    match a.mailbox with
    | [] =>
      if a.state = State.STOPPING then
        ({ a with state := State.STOPPED }, false, ProcessEvent.no_message)
      else (a, false, ProcessEvent.no_message)
    | message :: rest =>
      let ev := if a.handlers.contains message.type then ProcessEvent.handled message
                else ProcessEvent.unhandled message
      let a1 := { a with mailbox := rest }
      let a2 := if a1.state = State.STOPPING ∧ rest = [] then
                  { a1 with state := State.STOPPED }
                else a1
      (a2, true, ev)

/-- Models `Actor::register_handler` (actor.cpp): `handlers_[type] = handler`.
With the table abstracted to its key set, registration adds the type if new
(re-registration overwrites the body, leaving the key set unchanged). -/
def Actor.register_handler (a : Actor) (message_type : String) : Actor :=
  if a.handlers.contains message_type then a
  else { a with handlers := a.handlers ++ [message_type] }

/-- Models `Actor::send` (actor.cpp). `loop_alive` is whether
`event_loop_.lock()` succeeds; `now` is the instant of the call, used as the
construction timestamp of any rewritten message. Returns the message handed to
`EventLoop::deliver_message`, or `none` when the loop is gone. -/
def Actor.send (a : Actor) (loop_alive : Bool) (target_actor_id : String)
    (message : Message) (now : Nat) : Option Message :=
  if !loop_alive then none
  else
    let m1 := if message.sender_id = "" then
        Message.construct message.type a.id target_actor_id message.payload
          Priority.NORMAL now
      else message
    let m2 := if m1.target_id ≠ target_actor_id then
        Message.construct m1.type m1.sender_id target_actor_id m1.payload
          Priority.NORMAL now
      else m1
    some m2

/-- Loop body of `Actor::peek_highest_priority_message` (actor.cpp): replace
the candidate exactly when the current message has strictly greater priority
(`static_cast<int>(current) > static_cast<int>(highest)`). -/
def maxStep (highest current : Message) : Message :=
  if highest.priority.toNat < current.priority.toNat then current else highest

/-- Models `Actor::peek_highest_priority_message` (actor.cpp): on an empty
mailbox return the sentinel `Message("empty", "", "", {})` (stamped at the
instant `now` of the call); otherwise scan a copy of the queue front to back,
replacing the candidate whenever a strictly higher-priority message is found.
The mailbox itself is not touched (only a copy of the queue is consumed). -/
def Actor.peek_highest_priority_message (a : Actor) (now : Nat) : Message :=
  match a.mailbox with
  | [] => Message.construct "empty" "" "" [] Priority.NORMAL now
  | m :: rest => rest.foldl maxStep m

/-- Registry lookup, `actors_.find(id)` on the `std::unordered_map`. -/
def lookupActor : List (String × Actor) → String → Option Actor
  | [], _ => none
  | (k, a) :: rest, actor_id => if k = actor_id then some a else lookupActor rest actor_id

/-- Replace the actor stored under an id (in-place mutation of the mapped
value through the shared pointer in the registry). -/
def updateActor : List (String × Actor) → String → Actor → List (String × Actor)
  | [], _, _ => []
  | (k, a) :: rest, actor_id, new =>
    if k = actor_id then (k, new) :: rest
    else (k, a) :: updateActor rest actor_id new

/-- Registry erasure, `actors_.erase(it)`. -/
def eraseActor : List (String × Actor) → String → List (String × Actor)
  | [], _ => []
  | (k, a) :: rest, actor_id =>
    if k = actor_id then rest else (k, a) :: eraseActor rest actor_id

/-- EventLoop (event_loop.h): actor registry keyed by id, and the run flag. -/
structure EventLoop where
  actors : List (String × Actor)
  running : Bool
deriving DecidableEq, Repr

/-- Models `EventLoop::find_actor` (event_loop.cpp). -/
def EventLoop.find_actor (el : EventLoop) (actor_id : String) : Option Actor :=
  lookupActor el.actors actor_id

/-- Models `EventLoop::deliver_message` (event_loop.cpp): look up the target by
id; if found and running, hand the message to `Actor::receive`; otherwise log a
diagnostic and change nothing. -/
def EventLoop.deliver_message (el : EventLoop) (message : Message) : EventLoop :=
  match el.find_actor message.target_id with
  | some target =>
    if target.is_running then
      { el with actors := updateActor el.actors message.target_id (target.receive message) }
    else el
  | none => el

/-- Models `EventLoop::remove_actor` (event_loop.cpp): if the id is present,
call `stop_immediately` on the actor when (and only when) it is RUNNING, then
erase the registry entry. The second component is the removed actor's final
state (the object outlives the registry entry through its shared pointer);
`none` when the id was absent. -/
def EventLoop.remove_actor (el : EventLoop) (actor_id : String) :
    EventLoop × Option Actor :=
  match lookupActor el.actors actor_id with
  | some a =>
    let a1 := if a.is_running then a.stop_immediately else a
    ({ el with actors := eraseActor el.actors actor_id }, some a1)
  | none => (el, none)

/-- RoundRobin scheduler state (scheduler.h): the rotating index. -/
structure RoundRobinScheduler where
  current_index : Nat
deriving DecidableEq, Repr

/-- Models `RoundRobinScheduler::next_actor` (scheduler.cpp): on an empty
candidate list return null; otherwise reset the index to 0 when it is out of
range (`current_index_ >= actors.size()`), return the actor at the index, and
advance the index to `(index + 1) % size`. -/
def RoundRobinScheduler.next_actor {α : Type} (s : RoundRobinScheduler)
    (actors : List α) : Option α × RoundRobinScheduler :=
  if actors.isEmpty then (none, s)
  else
    let i := if actors.length ≤ s.current_index then 0 else s.current_index
    (actors[i]?, ⟨(i + 1) % actors.length⟩)

/-- Iterate `next_actor` on a fixed candidate list, collecting the selections
of `n` consecutive scheduling cycles. -/
def rrRun {α : Type} (s : RoundRobinScheduler) (l : List α) : Nat → List (Option α)
  | 0 => []
  | n + 1 =>
    let r := s.next_actor l
    r.1 :: rrRun r.2 l n

/-- Core Actor operations named by the lifecycle claims. -/
inductive CoreOp
  | op_init
  | op_start
  | op_stop
  | op_receive (m : Message)
  | op_process
deriving Repr

/-- Apply one core operation to an actor. -/
def applyOp (a : Actor) : CoreOp → Actor
  | .op_init => a.init
  | .op_start => a.start
  | .op_stop => a.stop
  | .op_receive m => a.receive m
  | .op_process => (a.process_next_message).1

/-- Apply a sequence of core operations, oldest first. -/
def applyOps (a : Actor) : List CoreOp → Actor
  | [] => a
  | op :: rest => applyOps (applyOp a op) rest

/-! Concrete objects used to instantiate the theorems at specific inputs. -/

/-- Sample message of type "ping" with a small payload. -/
def pingMsg : Message :=
  Message.construct "ping" "S" "A" [("count", PVal.vInt 1)] Priority.NORMAL 0

/-- Sample actor that is draining: STOPPING with one queued message. -/
def drainingActor : Actor :=
  { id := "A", name := "draining", state := State.STOPPING,
    mailbox := [pingMsg], handlers := ["ping"] }

/-- Sample actor in RUNNING state with an empty mailbox. -/
def runningActor : Actor :=
  { id := "A", name := "runner", state := State.RUNNING,
    mailbox := [], handlers := ["ping"] }

/-- Sample actor already STOPPED. -/
def stoppedActor : Actor :=
  { id := "A", name := "halted", state := State.STOPPED,
    mailbox := [], handlers := [] }

/-- Sample registry holding the draining actor under its id. -/
def drainingLoop : EventLoop :=
  { actors := [("A", drainingActor)], running := true }

/-- Sample registry holding the running actor under its id. -/
def runningLoop : EventLoop :=
  { actors := [("A", runningActor)], running := true }

/-- Sample message whose sender field is already non-empty and differs from
the id of every sample actor, and whose target field is "T". -/
def foreignMsg : Message :=
  Message.construct "ping" "B" "T" [] Priority.HIGH 5

/-- Sample message with an empty sender field and HIGH priority. -/
def blankSenderMsg : Message :=
  Message.construct "ping" "" "T" [("count", PVal.vInt 1)] Priority.HIGH 5

/-- Sample six-element mailbox with its first maximum at position 1. -/
def mixedMailbox : List Message :=
  [Message.construct "a" "" "" [] Priority.NORMAL 0,
   Message.construct "b" "" "" [] Priority.HIGH 1,
   Message.construct "c" "" "" [] Priority.LOW 2,
   Message.construct "d" "" "" [] Priority.HIGH 3]

/-- Sample actor whose mailbox is `mixedMailbox`. -/
def mixedActor : Actor :=
  { id := "A", name := "mixed", state := State.RUNNING,
    mailbox := mixedMailbox, handlers := [] }

/-- Five-element candidate list for round-robin scenarios. -/
def fiveList : List String := ["a", "b", "c", "d", "e"]

/-- Two-element candidate list for round-robin scenarios. -/
def twoList : List String := ["x", "y"]

/-- Scheduler state reached from a fresh RoundRobinScheduler after three
cycles on a stable five-element candidate list: current index 3. -/
def rrAfterThree : RoundRobinScheduler :=
  ((((RoundRobinScheduler.mk 0).next_actor fiveList).2.next_actor fiveList).2.next_actor fiveList).2

end ActorCpp

/-! Theorems. -/

namespace ActorCpp

/-- C3: for every actor in every state (including STOPPED),
`stop_immediately` leaves the actor STOPPED with an empty mailbox, touches
nothing else, executes unconditionally regardless of prior state, and is
idempotent. -/
theorem c3_stop_immediately_forces_stopped (a : Actor) :
    a.stop_immediately.state = State.STOPPED ∧
    a.stop_immediately.mailbox = [] ∧
    a.stop_immediately.id = a.id ∧
    a.stop_immediately.name = a.name ∧
    a.stop_immediately.handlers = a.handlers ∧
    a.stop_immediately.stop_immediately = a.stop_immediately := by
  simp [Actor.stop_immediately]

/-- C1: `process_next_message` returns false exactly when the actor is STOPPED
or its mailbox is empty; it changes nothing when STOPPED; on an empty mailbox
it finalizes STOPPING to STOPPED (and only that) and pops nothing; otherwise it
pops the front (oldest) message, reports a handler dispatch when the message
type has a registered handler and an unhandled consumption otherwise, returns
true, and finalizes STOPPING to STOPPED exactly when the pop emptied the
mailbox. -/
theorem c1_process_next_message_spec (a : Actor) :
    (a.process_next_message.2.1 = false ↔
      (a.state = State.STOPPED ∨ a.mailbox = [])) ∧
    (a.state = State.STOPPED → a.process_next_message.1 = a) ∧
    (a.state ≠ State.STOPPED → a.mailbox = [] →
      a.process_next_message.1.state =
        (if a.state = State.STOPPING then State.STOPPED else a.state) ∧
      a.process_next_message.1.mailbox = [] ∧
      a.process_next_message.2.2 = ProcessEvent.no_message) ∧
    (∀ m rest, a.state ≠ State.STOPPED → a.mailbox = m :: rest →
      a.process_next_message.2.1 = true ∧
      a.process_next_message.1.mailbox = rest ∧
      a.process_next_message.2.2 =
        (if a.handlers.contains m.type then ProcessEvent.handled m
         else ProcessEvent.unhandled m) ∧
      a.process_next_message.1.state =
        (if a.state = State.STOPPING ∧ rest = [] then State.STOPPED
         else a.state)) := by
  obtain ⟨i, n, st, mb, hs⟩ := a
  cases mb <;> cases st <;>
    simp [Actor.process_next_message, apply_ite Actor.state,
      apply_ite Actor.mailbox]

/-- C1 witness: the draining actor (STOPPING, one queued "ping" with a
registered handler) processes it: returns true, dispatches to the handler. -/
theorem c1_witness :
    drainingActor.process_next_message.2.1 = true ∧
    drainingActor.process_next_message.1.mailbox = [] :=
  ⟨((c1_process_next_message_spec drainingActor).2.2.2 pingMsg []
      (by decide) rfl).1,
   ((c1_process_next_message_spec drainingActor).2.2.2 pingMsg []
      (by decide) rfl).2.1⟩

/-- C9: the strict payload accessor propagates a failure distinguishing a type
mismatch from a missing key, the defaulting accessor returns the supplied
default for either failure and never fails, and when the key is present with
the expected type both return the stored value. -/
theorem c9_payload_accessors (m : Message) (expected : PTag) (key : String)
    (d : PVal) :
    (∀ v, payloadFind m.payload key = some v → v.tag = expected →
      m.get_payload_value expected key = Except.ok v ∧
      m.get_payload_value_or expected key d = v) ∧
    (∀ v, payloadFind m.payload key = some v → v.tag ≠ expected →
      m.get_payload_value expected key =
        Except.error (PayloadError.type_mismatch key) ∧
      m.get_payload_value_or expected key d = d) ∧
    (payloadFind m.payload key = none →
      m.get_payload_value expected key =
        Except.error (PayloadError.key_not_found key) ∧
      m.get_payload_value_or expected key d = d) ∧
    (∀ k1 k2, PayloadError.type_mismatch k1 ≠ PayloadError.key_not_found k2) := by
  refine ⟨?_, ?_, ?_, ?_⟩ <;> intros <;>
    simp_all [Message.get_payload_value, Message.get_payload_value_or]

/-- C9 witness: on `pingMsg`, key "count" stored as the integer 1: the strict
accessor returns it, the defaulting accessor ignores its default. -/
theorem c9_witness :
    pingMsg.get_payload_value PTag.tInt "count" = Except.ok (PVal.vInt 1) ∧
    pingMsg.get_payload_value_or PTag.tInt "count" (PVal.vInt 0) = PVal.vInt 1 :=
  (c9_payload_accessors pingMsg PTag.tInt "count" (PVal.vInt 0)).1
    (PVal.vInt 1) rfl rfl

/-- Helper: every core operation leaves a STOPPED actor entirely unchanged. -/
theorem applyOp_of_stopped (a : Actor) (op : CoreOp)
    (h : a.state = State.STOPPED) : applyOp a op = a := by
  cases op <;>
    simp [applyOp, Actor.init, Actor.start, Actor.stop, Actor.receive,
      Actor.process_next_message, h]

/-- Helper: every sequence of core operations leaves a STOPPED actor
unchanged. -/
theorem applyOps_of_stopped (a : Actor) (ops : List CoreOp)
    (h : a.state = State.STOPPED) : applyOps a ops = a := by
  induction ops with
  | nil => rfl
  | cons op rest ih =>
    show applyOps (applyOp a op) rest = a
    rw [applyOp_of_stopped a op h]
    exact ih

/-- C2: `stop` is a no-op in STOPPED or STOPPING; from any other state it
moves the actor to STOPPING, collapsing immediately to STOPPED when the
mailbox is already empty (the mailbox itself is untouched); while STOPPING,
the other core operations keep the actor STOPPING, and a processing step
finalizes STOPPED exactly when it drains the mailbox (at most one message
left); and once STOPPED, no sequence of core operations changes the actor at
all. -/
theorem c2_stop_lifecycle (a : Actor) (m : Message) (ops : List CoreOp) :
    (a.state = State.STOPPED ∨ a.state = State.STOPPING → a.stop = a) ∧
    (a.state ≠ State.STOPPED → a.state ≠ State.STOPPING →
      a.stop.state = (if a.mailbox = [] then State.STOPPED else State.STOPPING) ∧
      a.stop.mailbox = a.mailbox) ∧
    (a.state = State.STOPPING →
      a.init.state = State.STOPPING ∧
      a.start.state = State.STOPPING ∧
      a.stop.state = State.STOPPING ∧
      (a.receive m).state = State.STOPPING ∧
      a.process_next_message.1.state =
        (if a.mailbox.length ≤ 1 then State.STOPPED else State.STOPPING)) ∧
    (a.state = State.STOPPED → applyOps a ops = a) := by
  refine ⟨?_, ?_, ?_, fun h => applyOps_of_stopped a ops h⟩
  · intro h
    rcases h with h | h <;> simp [Actor.stop, h]
  · intro h1 h2
    obtain ⟨i, n, st, mb, hs⟩ := a
    cases mb <;>
      simp_all [Actor.stop, Actor.has_messages, apply_ite Actor.state,
        apply_ite Actor.mailbox]
  · intro h
    obtain ⟨i, n, st, mb, hs⟩ := a
    obtain rfl : st = State.STOPPING := h
    refine ⟨by simp [Actor.init], by simp [Actor.start], by simp [Actor.stop], by simp [Actor.receive], ?_⟩
    cases mb with
    | nil => simp [Actor.process_next_message]
    | cons hd tl =>
      cases tl <;>
        simp [Actor.process_next_message, apply_ite Actor.state]

/-- C2 witness: a STOPPED actor subjected to a stop and a processing step is
unchanged. -/
theorem c2_witness :
    applyOps stoppedActor [CoreOp.op_stop, CoreOp.op_process] = stoppedActor :=
  (c2_stop_lifecycle stoppedActor pingMsg
    [CoreOp.op_stop, CoreOp.op_process]).2.2.2 rfl

/-- Helper: updating the entry stored under a present key rebinds that key. -/
theorem lookupActor_updateActor_self (l : List (String × Actor)) (k : String)
    (b : Actor) (a : Actor) (h : lookupActor l k = some a) :
    lookupActor (updateActor l k b) k = some b := by
  induction l with
  | nil => simp [lookupActor] at h
  | cons hd tl ih =>
    obtain ⟨k0, a0⟩ := hd
    by_cases hk : k0 = k <;> simp_all [lookupActor, updateActor]

/-- Helper: updating one key leaves lookups of every other key unchanged. -/
theorem lookupActor_updateActor_ne (l : List (String × Actor)) (k other : String)
    (b : Actor) (h : other ≠ k) :
    lookupActor (updateActor l k b) other = lookupActor l other := by
  induction l with
  | nil => simp [lookupActor, updateActor]
  | cons hd tl ih =>
    obtain ⟨k0, a0⟩ := hd
    by_cases hk : k0 = k <;> by_cases ho : k0 = other <;>
      simp_all [lookupActor, updateActor]

/-- C4: `deliver_message` enqueues the message at the back of the target's
mailbox exactly when an actor with the message's target id is registered and
RUNNING (leaving every other registry entry and the run flag unchanged); with
an unknown target id, or a registered target that is not RUNNING (including
STOPPING), the loop is returned entirely unchanged — the drop is a diagnostic
only, no error reaches the sender and no mailbox or state moves. -/
theorem c4_deliver_message_spec (el : EventLoop) (message : Message) :
    (∀ a, lookupActor el.actors message.target_id = some a →
      a.state = State.RUNNING →
      (el.deliver_message message).running = el.running ∧
      lookupActor (el.deliver_message message).actors message.target_id =
        some { a with mailbox := a.mailbox ++ [message] } ∧
      (∀ other, other ≠ message.target_id →
        lookupActor (el.deliver_message message).actors other =
          lookupActor el.actors other)) ∧
    (∀ a, lookupActor el.actors message.target_id = some a →
      a.state ≠ State.RUNNING → el.deliver_message message = el) ∧
    (lookupActor el.actors message.target_id = none →
      el.deliver_message message = el) := by
  refine ⟨?_, ?_, ?_⟩
  · intro a ha hrun
    have hd : el.deliver_message message =
        { el with actors :=
            updateActor el.actors message.target_id (a.receive message) } := by
      simp [EventLoop.deliver_message, EventLoop.find_actor, ha,
        Actor.is_running, hrun]
    have hr : a.receive message = { a with mailbox := a.mailbox ++ [message] } := by
      simp [Actor.receive, hrun]
    refine ⟨by rw [hd], ?_, ?_⟩
    · rw [hd]
      simpa [hr] using
        lookupActor_updateActor_self el.actors message.target_id
          (a.receive message) a ha
    · intro other ho
      rw [hd]
      exact lookupActor_updateActor_ne el.actors message.target_id other _ ho
  · intro a ha hrun
    simp [EventLoop.deliver_message, EventLoop.find_actor, ha,
      Actor.is_running, hrun]
  · intro ha
    simp [EventLoop.deliver_message, EventLoop.find_actor, ha]

/-- C4 witness: delivering `pingMsg` (target "A") to the loop holding the
RUNNING actor "A" appends it to that actor's mailbox. -/
theorem c4_witness :
    lookupActor (runningLoop.deliver_message pingMsg).actors pingMsg.target_id =
      some { runningActor with mailbox := runningActor.mailbox ++ [pingMsg] } :=
  ((c4_deliver_message_spec runningLoop pingMsg).1 runningActor
    (by decide) rfl).2.1

/-- C5 counterexample: the registry holds actor "A" in state STOPPING with one
queued message; `remove_actor "A"` erases it from the registry but — because
the actor is not RUNNING — never calls `stop_immediately`, so the removed
actor is left STOPPING with its mailbox intact, contradicting "force-stops …
leaving it STOPPED with its mailbox discarded … regardless of the actor's
prior state". -/
theorem c5_counterexample :
    (drainingLoop.remove_actor "A").1.actors = [] ∧
    (drainingLoop.remove_actor "A").2 = some drainingActor ∧
    drainingActor.state ≠ State.STOPPED ∧
    drainingActor.mailbox ≠ [] := by decide

/-- C5 amended: `remove_actor` is a no-op when the id is absent; when the id
is present it erases the registry entry (run flag untouched) and force-stops
the actor only when it was RUNNING — leaving it STOPPED with its mailbox
discarded; an actor in any other state is erased with its state and mailbox
untouched. -/
theorem c5_remove_actor_amended (el : EventLoop) (actor_id : String) :
    (lookupActor el.actors actor_id = none →
      el.remove_actor actor_id = (el, none)) ∧
    (∀ a, lookupActor el.actors actor_id = some a →
      (el.remove_actor actor_id).1.actors = eraseActor el.actors actor_id ∧
      (el.remove_actor actor_id).1.running = el.running ∧
      (a.state = State.RUNNING →
        (el.remove_actor actor_id).2 = some a.stop_immediately ∧
        a.stop_immediately.state = State.STOPPED ∧
        a.stop_immediately.mailbox = []) ∧
      (a.state ≠ State.RUNNING →
        (el.remove_actor actor_id).2 = some a)) := by
  refine ⟨?_, ?_⟩
  · intro h
    simp [EventLoop.remove_actor, h]
  · intro a ha
    refine ⟨by simp [EventLoop.remove_actor, ha],
      by simp [EventLoop.remove_actor, ha], ?_, ?_⟩
    · intro hrun
      simp [EventLoop.remove_actor, ha, Actor.is_running, hrun,
        Actor.stop_immediately]
    · intro hrun
      simp [EventLoop.remove_actor, ha, Actor.is_running, hrun]

/-- C5 amended witness: removing the present, non-RUNNING actor "A" hands back
exactly the unmodified actor. -/
theorem c5_amended_witness :
    (drainingLoop.remove_actor "A").2 = some drainingActor :=
  (((c5_remove_actor_amended drainingLoop "A").2 drainingActor rfl).2.2.2)
    (by decide)

/-- C6 counterexample: the calling actor has id "A"; the outgoing message
already carries the non-empty sender "B" and the correct target "T", so `send`
delivers it unchanged — the delivered sender field is "B", not the calling
actor's id, contradicting "sender field equal to the calling actor's id". -/
theorem c6_counterexample :
    (drainingActor.send true "T" foreignMsg 7).map Message.sender_id =
      some "B" ∧
    drainingActor.id = "A" ∧ ("B" : String) ≠ "A" := by decide

/-- C6 amended: the delivered message's target always equals `target_id`; its
sender is rewritten to the calling actor's id only when the original sender
field was empty, while a non-empty sender (even one differing from the
caller's id) is preserved; and when the weak event-loop reference is
invalidated, `send` delivers nothing (diagnostic only). -/
theorem c6_send_amended (a : Actor) (target_actor_id : String)
    (message : Message) (now : Nat) :
    a.send false target_actor_id message now = none ∧
    (a.send true target_actor_id message now).map Message.target_id =
      some target_actor_id ∧
    (a.send true target_actor_id message now).map Message.sender_id =
      some (if message.sender_id = "" then a.id else message.sender_id) := by
  refine ⟨rfl, ?_, ?_⟩ <;>
    by_cases h1 : message.sender_id = "" <;>
      by_cases h2 : message.target_id = target_actor_id <;>
        simp [Actor.send, Message.construct, h1, h2]

/-- C10: whenever the outgoing message's sender field is empty or its target
field differs from the given target id, the delivered message is a fresh
construction carrying the original type and payload but with priority reset to
the default NORMAL and `created_at` re-stamped at the rewrite instant `now`;
only a message whose sender is already non-empty and whose target already
matches is delivered unchanged. -/
theorem c10_send_reconstruction (a : Actor) (target_actor_id : String)
    (message : Message) (now : Nat) :
    (message.sender_id = "" ∨ message.target_id ≠ target_actor_id →
      (a.send true target_actor_id message now).map Message.type =
        some message.type ∧
      (a.send true target_actor_id message now).map Message.payload =
        some message.payload ∧
      (a.send true target_actor_id message now).map Message.priority =
        some Priority.NORMAL ∧
      (a.send true target_actor_id message now).map Message.created_at =
        some now) ∧
    (message.sender_id ≠ "" → message.target_id = target_actor_id →
      a.send true target_actor_id message now = some message) := by
  constructor
  · intro h
    by_cases h1 : message.sender_id = "" <;>
      by_cases h2 : message.target_id = target_actor_id <;>
        simp_all [Actor.send, Message.construct]
  · intro h1 h2
    simp [Actor.send, Message.construct, h1, h2]

/-- C10 witness: sending `blankSenderMsg` (empty sender, HIGH priority,
created at 5) at instant 9 delivers a message with priority NORMAL and
timestamp 9. -/
theorem c10_witness :
    (drainingActor.send true "T" blankSenderMsg 9).map Message.priority =
      some Priority.NORMAL ∧
    (drainingActor.send true "T" blankSenderMsg 9).map Message.created_at =
      some 9 :=
  ⟨((c10_send_reconstruction drainingActor "T" blankSenderMsg 9).1
      (Or.inl rfl)).2.2.1,
   ((c10_send_reconstruction drainingActor "T" blankSenderMsg 9).1
      (Or.inl rfl)).2.2.2⟩

/-- Helper: folding `maxStep` from a seed computes `List.argmax` of the seeded
list: the maximum with ties resolved to the earliest element. -/
theorem argmax_eq_foldl_maxStep (l : List Message) (best : Message) :
    List.argmax (fun x => x.priority.toNat) (best :: l) =
      some (l.foldl maxStep best) := by
  have key : ∀ (t : List Message) (b : Message),
      List.foldl
        (List.argAux fun x y : Message => y.priority.toNat < x.priority.toNat)
        (some b) t = some (t.foldl maxStep b) := by
    intro t
    induction t with
    | nil => intro b; rfl
    | cons c t ih =>
      intro b
      rw [List.foldl_cons, List.foldl_cons]
      have harg :
          List.argAux (fun x y : Message => y.priority.toNat < x.priority.toNat)
            (some b) c = some (maxStep b c) := by
        by_cases h : b.priority.toNat < c.priority.toNat <;>
          simp [List.argAux, maxStep, h]
      rw [harg, ih]
  exact key l best

/-- C7: `peek_highest_priority_message` on a non-empty mailbox returns a
queued message whose priority value is greatest among all queued messages,
and which occurs no later than any other message of that maximal priority
(ties broken by earliest arrival in FIFO order); on an empty mailbox it
returns the sentinel "empty" message instead of failing. The embedding of the
peek is a pure function of the actor, so the mailbox is never modified. -/
theorem c7_peek_highest_priority (a : Actor) (now : Nat) :
    (a.mailbox = [] →
      a.peek_highest_priority_message now =
        Message.construct "empty" "" "" [] Priority.NORMAL now) ∧
    (a.mailbox ≠ [] →
      a.peek_highest_priority_message now ∈ a.mailbox ∧
      (∀ x ∈ a.mailbox,
        x.priority.toNat ≤ (a.peek_highest_priority_message now).priority.toNat) ∧
      (∀ x ∈ a.mailbox,
        (a.peek_highest_priority_message now).priority.toNat ≤ x.priority.toNat →
        a.mailbox.indexOf (a.peek_highest_priority_message now) ≤
          a.mailbox.indexOf x)) := by
  constructor
  · intro h
    simp [Actor.peek_highest_priority_message, h]
  · intro h
    cases hmb : a.mailbox with
    | nil => exact absurd hmb h
    | cons m rest =>
      have hpeek : a.peek_highest_priority_message now = rest.foldl maxStep m := by
        simp [Actor.peek_highest_priority_message, hmb]
      have harg := argmax_eq_foldl_maxStep rest m
      rw [← hpeek] at harg
      obtain ⟨h1, h2, h3⟩ := List.argmax_eq_some_iff.mp harg
      exact ⟨h1, h2, h3⟩

/-- C7 witness: on the four-message mailbox of `mixedActor`, the peek returns
one of the queued messages. -/
theorem c7_witness :
    mixedActor.peek_highest_priority_message 0 ∈ mixedActor.mailbox :=
  ((c7_peek_highest_priority mixedActor 0).2 (by decide)).1

/-- Helper: with the rotating index in range, one round-robin call selects the
element at the index and advances the index cyclically. -/
theorem next_actor_of_lt {α : Type} (l : List α) (i : Nat) (h : i < l.length) :
    RoundRobinScheduler.next_actor ⟨i⟩ l = (l[i]?, ⟨(i + 1) % l.length⟩) := by
  have hne : l.isEmpty = false := by
    cases l with
    | nil => simp at h
    | cons c t => rfl
  simp [RoundRobinScheduler.next_actor, hne, Nat.not_le.mpr h]

/-- Helper: closed form of `n` consecutive round-robin cycles on a stable
candidate list, starting from an in-range index: cycle `k` selects the element
at index `(i + k) mod length`. -/
theorem rrRun_closed {α : Type} (l : List α) :
    ∀ (n i : Nat), i < l.length →
      rrRun ⟨i⟩ l n = (List.range n).map (fun k => l[(i + k) % l.length]?) := by
  intro n
  induction n with
  | zero => intro i h; rfl
  | succ n ih =>
    intro i h
    have hpos : 0 < l.length := Nat.lt_of_le_of_lt (Nat.zero_le i) h
    have h2 : (i + 1) % l.length < l.length := Nat.mod_lt _ hpos
    simp only [rrRun]
    rw [next_actor_of_lt l i h]
    rw [ih ((i + 1) % l.length) h2]
    rw [List.range_succ_eq_map, List.map_cons, List.map_map]
    congr 1
    · simp [Nat.mod_eq_of_lt h]
    · apply List.map_congr_left
      intro k _
      simp only [Function.comp_apply]
      rw [Nat.mod_add_mod]
      congr 2
      omega

/-- Helper: the first call of a cycle normalizes an out-of-range index to 0,
so every run on a non-empty stable list coincides with the run started from
the normalized index. -/
theorem rrRun_normalize {α : Type} (s : RoundRobinScheduler) (l : List α)
    (n : Nat) (h : l ≠ []) :
    rrRun s l n =
      rrRun ⟨if l.length ≤ s.current_index then 0 else s.current_index⟩ l n := by
  have hne : l.isEmpty = false := by
    cases l with
    | nil => exact absurd rfl h
    | cons c t => rfl
  have hi0 : (if l.length ≤ s.current_index then 0 else s.current_index) <
      l.length := by
    split
    · cases l with
      | nil => exact absurd rfl h
      | cons c t => simp
    · omega
  have hpos : 0 < l.length := by
    cases l with
    | nil => exact absurd rfl h
    | cons c t => simp
  cases n with
  | zero => rfl
  | succ n =>
    have hfirst : s.next_actor l =
        RoundRobinScheduler.next_actor
          ⟨if l.length ≤ s.current_index then 0 else s.current_index⟩ l := by
      by_cases hci : l.length ≤ s.current_index <;>
        simp [RoundRobinScheduler.next_actor, hne, hci, Nat.not_le.mpr hpos]
    simp only [rrRun]
    rw [hfirst]

/-- C8 counterexample: from a fresh RoundRobinScheduler, three cycles on a
stable five-element list leave the rotating index at 3; the next call, on a
two-element list, returns the element at index 0 ("x"), not the element at
index 3 mod 2 = 1 ("y") that "the current rotating index modulo the list
size" prescribes. -/
theorem c8_counterexample :
    rrAfterThree.current_index = 3 ∧
    (rrAfterThree.next_actor twoList).1 = some "x" ∧
    twoList[rrAfterThree.current_index % twoList.length]? = some "y" ∧
    (some "x" : Option String) ≠ some "y" := by decide

/-- C8 amended: on an empty candidate list `next_actor` returns none and keeps
its state; on a non-empty list each call returns the actor at the current
index after first resetting the index to 0 when it is out of range (not the
index modulo the list size), then advances the index to (index + 1) mod size;
and across any `N` consecutive calls on a stable list of size `N ≥ 1` the
selections are a permutation of the candidates — each candidate is selected
exactly once. -/
theorem c8_round_robin_amended {α : Type} (s : RoundRobinScheduler)
    (l : List α) :
    RoundRobinScheduler.next_actor s ([] : List α) = (none, s) ∧
    (l ≠ [] →
      s.next_actor l =
        (l[(if l.length ≤ s.current_index then 0 else s.current_index)]?,
         ⟨((if l.length ≤ s.current_index then 0 else s.current_index) + 1) %
            l.length⟩) ∧
      (s.next_actor l).1.isSome = true ∧
      (rrRun s l l.length).Perm (l.map some)) := by
  refine ⟨rfl, ?_⟩
  intro h
  have hne : l.isEmpty = false := by
    cases l with
    | nil => exact absurd rfl h
    | cons c t => rfl
  have hi0 : (if l.length ≤ s.current_index then 0 else s.current_index) <
      l.length := by
    split
    · cases l with
      | nil => exact absurd rfl h
      | cons c t => simp
    · omega
  have hfirst : s.next_actor l =
      (l[(if l.length ≤ s.current_index then 0 else s.current_index)]?,
       ⟨((if l.length ≤ s.current_index then 0 else s.current_index) + 1) %
          l.length⟩) := by
    by_cases hci : l.length ≤ s.current_index <;>
      simp [RoundRobinScheduler.next_actor, hne, hci]
  refine ⟨hfirst, ?_, ?_⟩
  · rw [hfirst]
    simp [List.getElem?_eq_getElem hi0]
  · rw [rrRun_normalize s l l.length h,
      rrRun_closed l l.length _ hi0]
    have hmap :
        (List.range l.length).map
          (fun k => l[((if l.length ≤ s.current_index then 0
            else s.current_index) + k) % l.length]?) =
        (l.rotate (if l.length ≤ s.current_index then 0
          else s.current_index)).map some := by
      apply List.ext_getElem?
      intro k
      by_cases hk : k < l.length
      · have hlt : ((if l.length ≤ s.current_index then 0
            else s.current_index) + k) % l.length < l.length :=
          Nat.mod_lt _ (Nat.lt_of_le_of_lt (Nat.zero_le _) hi0)
        rw [List.getElem?_map, List.getElem?_map,
          List.getElem?_range hk, List.getElem?_rotate hk,
          Nat.add_comm k]
        simp [List.getElem?_eq_getElem hlt]
      · rw [List.getElem?_eq_none, List.getElem?_eq_none]
        · rw [List.length_map, List.length_rotate]; omega
        · rw [List.length_map, List.length_range]; omega
    rw [hmap]
    exact (List.rotate_perm l _).map some

/-- C8 amended witness: two cycles of a fresh scheduler on the stable
two-element list select each candidate exactly once. -/
theorem c8_witness :
    (rrRun ⟨0⟩ twoList twoList.length).Perm (twoList.map some) :=
  ((c8_round_robin_amended ⟨0⟩ twoList).2 (by decide)).2.2

end ActorCpp
